import Mathlib

/-!
Shallow embedding of `src/audio_engine/src/engine.rs` (crate `duel_android`,
audio engine core): the source-adaptation decision in `AudioEngine::new_sound`,
the device-negotiation candidate mapping and ordering in `create_device`, and
the supervisor event loop `StreamEventLoop::run` with its error-handler latch
and the `Drop` implementation of `Backend`.

Sample rates and channel counts are `Nat` (the Rust `u32`/`u16` values involved
are small and no arithmetic overflows). The mpsc channel is modelled explicitly:
a send observes whether the receiver is still alive, and `.unwrap()` on a failed
send is modelled as a `panicked` outcome.
-/

namespace DuelAudio

/-- Sample representation of a stream config (`cpal::SampleFormat`). -/
inductive SampleFormat where
| I16
| U16
| F32
deriving DecidableEq

/-- Capability range of a candidate output configuration
(`cpal::SupportedStreamConfigRange`): a sample-rate range plus the fixed
channel count and sample format of the candidate. -/
structure SupportedStreamConfigRange where
  min_sample_rate : Nat
  max_sample_rate : Nat
  channels : Nat
  sample_format : SampleFormat
deriving DecidableEq

/-- A concrete candidate configuration (`cpal::SupportedStreamConfig`) after a
sample rate has been chosen for the range. -/
structure SupportedStreamConfig where
  sample_rate : Nat
  channels : Nat
  sample_format : SampleFormat
deriving DecidableEq

/-- Rust `x.with_sample_rate(rate)`: fix a concrete sample rate for a range. -/
def with_sample_rate (x : SupportedStreamConfigRange) (rate : Nat) :
    SupportedStreamConfig :=
  { sample_rate := rate, channels := x.channels, sample_format := x.sample_format }

/-- Rust `x.with_max_sample_rate()`. -/
def with_max_sample_rate (x : SupportedStreamConfigRange) : SupportedStreamConfig :=
  with_sample_rate x x.max_sample_rate

/-- The per-candidate mapping in `create_device` (engine.rs lines 247-259):
clamp to 48000 Hz when the range contains it, else to 44100 Hz when the range
contains it, else use the maximum supported sample rate. -/
def map_config (x : SupportedStreamConfigRange) : SupportedStreamConfig :=
  if x.min_sample_rate ≤ 48000 ∧ 48000 ≤ x.max_sample_rate then
    with_sample_rate x 48000
  else if x.min_sample_rate ≤ 44100 ∧ 44100 ≤ x.max_sample_rate then
    with_sample_rate x 44100
  else
    with_max_sample_rate x

/-- The sort key of `create_device` (engine.rs lines 262-274), as a list of
naturals compared lexicographically; Rust compares a tuple of five `bool`s and
a `u32` with `false < true`, which is the same as `0 < 1` here. The second
component is literally `x.sample_rate().0 == 441000` in the source (note the
extra zero). -/
def sort_key (x : SupportedStreamConfig) : List Nat :=
  [ (if x.sample_rate = 48000 then 1 else 0),
    (if x.sample_rate = 441000 then 1 else 0),
    (if x.channels = 2 then 1 else 0),
    (if x.channels = 1 then 1 else 0),
    (if x.sample_format = SampleFormat.I16 then 1 else 0),
    x.sample_rate ]

/-- Lexicographic strict order on lists of naturals, matching Rust tuple `Ord`. -/
def lex_lt : List Nat → List Nat → Bool
| [], [] => false
| [], _ :: _ => true
| _ :: _, [] => false
| a :: l1, b :: l2 =>
  if a < b then true else if b < a then false else lex_lt l1 l2

/-- Candidate `a` is attempted before candidate `b`: the vector is sorted
ascending by `sort_key` and popped from the end, so `a` is preferred exactly
when its key is strictly greater. -/
def preferred_over (a b : SupportedStreamConfig) : Bool :=
  lex_lt (sort_key b) (sort_key a)

/-- Format of a `SoundSource` as seen by `new_sound`: its reported channel
count and sample rate. -/
structure SoundSourceFmt where
  channels : Nat
  sample_rate : Nat
deriving DecidableEq

/-- The (possibly adapter-wrapped) boxed source that `new_sound` hands to
`Mixer::add_sound`: the source directly, or wrapped in `SampleRateConverter`
and/or `ChannelConverter`. -/
inductive WrappedSource where
| direct (source : SoundSourceFmt)
| sampleRateConverter (inner : WrappedSource) (target_rate : Nat)
| channelConverter (inner : WrappedSource) (target_channels : Nat)
deriving DecidableEq

/-- State of the shared `Mixer`: the active output format (channel count and
sample rate) and the registered sources in insertion order (the source id is
the index). -/
structure Mixer where
  channels : Nat
  sample_rate : Nat
  sounds : List WrappedSource
deriving DecidableEq

/-- The `Sound` handle returned by `new_sound`: the fresh source id (the
shared mixer reference is not part of the functional model). -/
structure Sound where
  id : Nat
deriving DecidableEq

/-- Rust `Mixer::add_sound`: register a wrapped source under a fresh id. -/
def add_sound (m : Mixer) (s : WrappedSource) : Mixer × Nat :=
  ({ m with sounds := m.sounds ++ [s] }, m.sounds.length)

/-- Rust `Mixer::set_config` (called in the candidate loop of
`create_device`, engine.rs lines 290-293). -/
def set_config (m : Mixer) (channels sample_rate : Nat) : Mixer :=
  { m with channels := channels, sample_rate := sample_rate }

/-- The adaptation decision of `AudioEngine::new_sound` (engine.rs lines
202-219), computing which wrapped source gets registered, or the error
returned before anything is registered. The branch structure is the source's:
first on `source.sample_rate() != mixer.sample_rate.0`, then on channel
equality, then on `mixer.channels == 1 || source.channels() == 1`. -/
def wrap_source (mixer_channels mixer_sample_rate : Nat)
    (source : SoundSourceFmt) : Except String WrappedSource :=
  if source.sample_rate ≠ mixer_sample_rate then
    if source.channels = mixer_channels then
      Except.ok (WrappedSource.sampleRateConverter
        (WrappedSource.direct source) mixer_sample_rate)
    else if mixer_channels = 1 ∨ source.channels = 1 then
      Except.ok (WrappedSource.channelConverter
        (WrappedSource.sampleRateConverter
          (WrappedSource.direct source) mixer_sample_rate)
        mixer_channels)
    else
      Except.error "Number of channels do not match the output, and neither are 1"
  else if source.channels = mixer_channels then
    Except.ok (WrappedSource.direct source)
  else if mixer_channels = 1 ∨ source.channels = 1 then
    Except.ok (WrappedSource.channelConverter
      (WrappedSource.direct source) mixer_channels)
  else
    Except.error "Number of channels do not match the output, and is not 1"

/-- Rust `AudioEngine::new_sound` (engine.rs lines 195-228): lock the mixer,
decide the wrapping; the error branches return before `add_sound`, the success
branch registers the wrapped source and returns a `Sound` handle with the
fresh id. Returns the mixer state after the call together with the result. -/
def new_sound (m : Mixer) (source : SoundSourceFmt) :
    Mixer × Except String Sound :=
  match wrap_source m.channels m.sample_rate source with
  | Except.error e => (m, Except.error e)
  | Except.ok w =>
    let r := add_sound m w
    (r.1, Except.ok { id := r.2 })

/-- Lifecycle events of the supervisor channel (engine.rs lines 90-93). -/
inductive StreamEvent where
| RecreateStream
| Drop
deriving DecidableEq

/-- How `StreamEventLoop::run` returned (it always returns): `createFailed`
when `create_device` returned an error (engine.rs lines 73-76), `dropReceived`
on a `StreamEvent::Drop` (line 80), `channelClosed` when `recv` failed because
all senders were gone (the `while let Ok` loop exits, line 56). -/
inductive RunExit where
| createFailed
| dropReceived
| channelClosed
deriving DecidableEq

/-- The candidate loop of `create_device` (engine.rs lines 282-317), with the
environment abstracted as `opens c`: whether building a stream for candidate
`c` succeeds. The input list is in pop order (the sorted vector reversed, most
preferred first). Each iteration calls `set_config` on the mixer, then tries
to build; on failure it continues with the next candidate, and an empty list
yields the single `Except.error` result. Returns the mixer after the loop, the
list of candidates attempted (in order), and the result. -/
def try_candidates (opens : SupportedStreamConfig → Bool) :
    Mixer → List SupportedStreamConfig →
    Mixer × List SupportedStreamConfig × Except String SupportedStreamConfig
| m, [] => (m, [], Except.error "no supported config")
| m, c :: rest =>
  let m1 := set_config m c.channels c.sample_rate
  if opens c then (m1, [c], Except.ok c)
  else
    let r := try_candidates opens m1 rest
    (r.1, c :: r.2.1, r.2.2)

/-- The event loop of `StreamEventLoop::run` (engine.rs lines 56-82), driven
by the list of events the receiver will deliver before the channel closes. On
`RecreateStream` it runs the negotiation (`try_candidates` over the fixed
candidate list `cands`): an error makes `run` return (`createFailed`, line
75), success continues the loop with the updated mixer. On `Drop` it returns;
on channel closure (end of list) the `while let Ok` loop exits. -/
def runLoop (opens : SupportedStreamConfig → Bool)
    (cands : List SupportedStreamConfig) :
    Mixer → List StreamEvent → Mixer × RunExit
| m, [] => (m, RunExit.channelClosed)
| m, StreamEvent.RecreateStream :: rest =>
  let r := try_candidates opens m cands
  match r.2.2 with
  | Except.error _ => (r.1, RunExit.createFailed)
  | Except.ok _ => runLoop opens cands r.1 rest
| m, StreamEvent.Drop :: _ => (m, RunExit.dropReceived)

/-- Sending on the mpsc channel: `Ok` while the receiver is alive, `Err`
carrying the event back once the receiver has been dropped (which happens as
soon as `StreamEventLoop::run` returns, since `run` owns the receiver). -/
def channel_send (receiver_alive : Bool) (e : StreamEvent) :
    Except StreamEvent Unit :=
  if receiver_alive then Except.ok () else Except.error e

/-- Outcome of a teardown or handler step that unwraps a channel send. -/
inductive DropOutcome where
| completed
| panicked
deriving DecidableEq

/-- Rust `impl Drop for Backend` (engine.rs lines 127-136):
`self.sender.send(StreamEvent::Drop).unwrap()` followed by a join on the
supervisor thread. When the send succeeds the loop returns on the `Drop` event
and the join returns (`runLoop` is total); when the receiver is already gone
the `.unwrap()` on the failed send panics. -/
def backend_drop (receiver_alive : Bool) : DropOutcome :=
  match channel_send receiver_alive StreamEvent.Drop with
  | Except.ok _ => DropOutcome.completed
  | Except.error _ => DropOutcome.panicked

/-- One invocation of the stream error callback (engine.rs lines 45-54): if
the captured latch `handled` is still unset, it is set and one
`RecreateStream` event is sent with `.unwrap()`. Returns the new latch value,
the events actually enqueued, and whether the `.unwrap()` panicked. -/
def handler_invoke (receiver_alive : Bool) (handled : Bool) :
    Bool × List StreamEvent × Bool :=
  if handled then (handled, [], false)
  else
    match channel_send receiver_alive StreamEvent.RecreateStream with
    | Except.ok _ => (true, [StreamEvent.RecreateStream], false)
    | Except.error _ => (true, [], true)

/-- Iterated invocation of one bound error-callback instance: `n` invocations
starting from latch state `handled`, collecting all enqueued events. -/
def invoke_n (receiver_alive : Bool) : Nat → Bool → Bool × List StreamEvent × Bool
| 0, handled => (handled, [], false)
| n + 1, handled =>
  let r1 := handler_invoke receiver_alive handled
  let r2 := invoke_n receiver_alive n r1.1
  (r2.1, r1.2.1 ++ r2.2.1, r1.2.2 || r2.2.2)

/-- Latch of the original `error_callback` closure held by the event loop
(`let mut handled = false`, engine.rs line 44). The loop never invokes this
original closure; it only clones it, so its latch stays `false`. -/
def initial_handled : Bool := false

/-- Latch state of a handler freshly bound to a (re)created stream: every
binding passes `error_callback.clone()` (engine.rs lines 70 and 298-300), and
cloning the closure copies the original's captured latch value. -/
def bind_handler : Bool := initial_handled

/-- Claim C4: for every source whose channel count differs from the output channel
count, with neither side mono, `new_sound` returns a channel-mismatch error
synchronously — both when the source's sample rate equals the output rate and
when it differs (the hypotheses do not constrain the rates). -/
theorem C4_channel_mismatch_error (mc mr : Nat) (source : SoundSourceFmt)
    (h1 : source.channels ≠ mc) (h2 : source.channels ≠ 1) (h3 : mc ≠ 1) :
    ∃ e, wrap_source mc mr source = Except.error e := by
  by_cases hr : source.sample_rate = mr <;>
    simp [wrap_source, hr, h1, h2, h3]

theorem C4_channel_mismatch_error_witness :
    ((6 : Nat) ≠ 2 ∧ (6 : Nat) ≠ 1 ∧ (2 : Nat) ≠ 1) ∧
    ∃ e, wrap_source 2 48000 { channels := 6, sample_rate := 48000 } =
      Except.error e :=
  ⟨by decide,
   C4_channel_mismatch_error 2 48000 { channels := 6, sample_rate := 48000 }
     (by decide) (by decide) (by decide)⟩

/-- Claim C5: a source matching the output format exactly (same sample rate and
same channel count) is registered directly with the mixer, unwrapped: the
mixer gains exactly `direct source` under the fresh id, and the returned
`Sound` carries that id. -/
theorem C5_direct_registration (m : Mixer) (source : SoundSourceFmt)
    (h1 : source.sample_rate = m.sample_rate)
    (h2 : source.channels = m.channels) :
    new_sound m source =
      ({ m with sounds := m.sounds ++ [WrappedSource.direct source] },
       Except.ok { id := m.sounds.length }) := by
  have hw : wrap_source m.channels m.sample_rate source =
      Except.ok (WrappedSource.direct source) := by
    simp [wrap_source, h1, h2]
  simp [new_sound, hw, add_sound]

theorem C5_direct_registration_witness :
    ((48000 : Nat) = 48000 ∧ (2 : Nat) = 2) ∧
    new_sound { channels := 2, sample_rate := 48000, sounds := [] }
        { channels := 2, sample_rate := 48000 } =
      ({ channels := 2, sample_rate := 48000,
         sounds := [WrappedSource.direct { channels := 2, sample_rate := 48000 }] },
       Except.ok { id := 0 }) :=
  ⟨by decide,
   C5_direct_registration { channels := 2, sample_rate := 48000, sounds := [] }
     { channels := 2, sample_rate := 48000 } (by decide) (by decide)⟩

/-- Claim C6: when both the sample rate and the channel count differ and at least
one side is mono, `new_sound` succeeds and registers the channel converter
wrapped around the sample-rate converter wrapped around the source: rate
adaptation is applied first, channel adaptation second. -/
theorem C6_rate_then_channel (mc mr : Nat) (source : SoundSourceFmt)
    (h1 : source.sample_rate ≠ mr) (h2 : source.channels ≠ mc)
    (h3 : source.channels = 1 ∨ mc = 1) :
    wrap_source mc mr source =
      Except.ok (WrappedSource.channelConverter
        (WrappedSource.sampleRateConverter (WrappedSource.direct source) mr)
        mc) := by
  rcases h3 with h3 | h3 <;> simp [wrap_source, h1, h2, h3] <;> omega

theorem C6_rate_then_channel_witness :
    ((44100 : Nat) ≠ 48000 ∧ (1 : Nat) ≠ 2 ∧ ((1 : Nat) = 1 ∨ (2 : Nat) = 1)) ∧
    wrap_source 2 48000 { channels := 1, sample_rate := 44100 } =
      Except.ok (WrappedSource.channelConverter
        (WrappedSource.sampleRateConverter
          (WrappedSource.direct { channels := 1, sample_rate := 44100 }) 48000)
        2) :=
  ⟨by decide,
   C6_rate_then_channel 2 48000 { channels := 1, sample_rate := 44100 }
     (by decide) (by decide) (by decide)⟩

/-- Claim C10: whenever `new_sound` returns an error, the mixer is left unchanged —
the source set, the output format, everything: the error branches of
`wrap_source` return before `add_sound` runs, and no `Sound` handle is
produced (the result is the error, not a handle). -/
theorem C10_error_leaves_mixer_unchanged (m : Mixer) (source : SoundSourceFmt)
    (e : String) (h : (new_sound m source).2 = Except.error e) :
    (new_sound m source).1 = m := by
  unfold new_sound at h ⊢
  cases hw : wrap_source m.channels m.sample_rate source with
  | error e2 => simp [hw]
  | ok w => rw [hw] at h; simp [add_sound] at h

theorem C10_error_leaves_mixer_unchanged_witness :
    (new_sound { channels := 2, sample_rate := 48000, sounds := [] }
        { channels := 6, sample_rate := 48000 }).2 =
      Except.error "Number of channels do not match the output, and is not 1" ∧
    (new_sound { channels := 2, sample_rate := 48000, sounds := [] }
        { channels := 6, sample_rate := 48000 }).1 =
      { channels := 2, sample_rate := 48000, sounds := [] } :=
  ⟨by rfl,
   C10_error_leaves_mixer_unchanged
     { channels := 2, sample_rate := 48000, sounds := [] }
     { channels := 6, sample_rate := 48000 }
     "Number of channels do not match the output, and is not 1" (by rfl)⟩

/-- Claim C8: the sample rate attempted for a candidate range is 48000 Hz when the
range contains it; otherwise 44100 Hz when the range contains that; otherwise
the range's maximum supported sample rate. -/
theorem C8_sample_rate_clamp (x : SupportedStreamConfigRange) :
    ((x.min_sample_rate ≤ 48000 ∧ 48000 ≤ x.max_sample_rate) →
      (map_config x).sample_rate = 48000) ∧
    (¬ (x.min_sample_rate ≤ 48000 ∧ 48000 ≤ x.max_sample_rate) →
      (x.min_sample_rate ≤ 44100 ∧ 44100 ≤ x.max_sample_rate) →
      (map_config x).sample_rate = 44100) ∧
    (¬ (x.min_sample_rate ≤ 48000 ∧ 48000 ≤ x.max_sample_rate) →
      ¬ (x.min_sample_rate ≤ 44100 ∧ 44100 ≤ x.max_sample_rate) →
      (map_config x).sample_rate = x.max_sample_rate) := by
  refine ⟨fun h1 => ?_, fun h1 h2 => ?_, fun h1 h2 => ?_⟩
  · simp [map_config, with_sample_rate, h1]
  · simp [map_config, with_sample_rate, h1, h2]
  · simp [map_config, with_sample_rate, with_max_sample_rate, h1, h2]

theorem C8_sample_rate_clamp_witness :
    (map_config { min_sample_rate := 44100, max_sample_rate := 48000,
                  channels := 2, sample_format := SampleFormat.F32 }).sample_rate
      = 48000 ∧
    (map_config { min_sample_rate := 8000, max_sample_rate := 44100,
                  channels := 2, sample_format := SampleFormat.F32 }).sample_rate
      = 44100 ∧
    (map_config { min_sample_rate := 8000, max_sample_rate := 22050,
                  channels := 2, sample_format := SampleFormat.F32 }).sample_rate
      = 22050 :=
  ⟨(C8_sample_rate_clamp _).1 (by decide),
   (C8_sample_rate_clamp _).2.1 (by decide) (by decide),
   (C8_sample_rate_clamp _).2.2 (by decide) (by decide)⟩

/-- Once the latch of a bound handler is set, further invocations enqueue
nothing and leave the latch set. -/
theorem invoke_n_handled (alive : Bool) :
    ∀ n, invoke_n alive n true = (true, [], false)
| 0 => rfl
| n + 1 => by
  simp [invoke_n, handler_invoke, invoke_n_handled alive n]

/-- Any positive number of invocations of a freshly bound handler, with the
supervisor still receiving, enqueues exactly the single `RecreateStream`. -/
theorem invoke_n_fresh (n : Nat) :
    invoke_n true (n + 1) false = (true, [StreamEvent.RecreateStream], false) := by
  simp [invoke_n, handler_invoke, channel_send, invoke_n_handled true n]

/-- Claim C1: if the bound error handler is invoked two or more times before
the next recreation completes, exactly one `RecreateStream` event is enqueued
on the lifecycle channel, and the one-shot latch of a freshly bound handler is
unset (the binding clones the event loop's original closure, whose latch is
never set). -/
theorem C1_one_event_per_binding (n : Nat) (h : 2 ≤ n) :
    (invoke_n true n bind_handler).2.1 = [StreamEvent.RecreateStream] ∧
    bind_handler = false := by
  refine ⟨?_, rfl⟩
  obtain ⟨m, rfl⟩ : ∃ m, n = m + 1 := ⟨n - 1, by omega⟩
  show (invoke_n true (m + 1) false).2.1 = [StreamEvent.RecreateStream]
  rw [invoke_n_fresh]

theorem C1_one_event_per_binding_witness :
    (2 : Nat) ≤ 2 ∧
    ((invoke_n true 2 bind_handler).2.1 = [StreamEvent.RecreateStream] ∧
     bind_handler = false) :=
  ⟨by decide, C1_one_event_per_binding 2 (by decide)⟩

/-- When every candidate fails to open, the candidate loop attempts each
candidate exactly once, in order, and produces the single error result. -/
theorem try_candidates_all_fail (opens : SupportedStreamConfig → Bool)
    (cands : List SupportedStreamConfig) (h : ∀ c ∈ cands, opens c = false) :
    ∀ m, (try_candidates opens m cands).2 =
      (cands, Except.error "no supported config") := by
  induction cands with
  | nil => intro m; rfl
  | cons c rest ih =>
    intro m
    have hc : opens c = false := h c (by simp)
    have hrest : ∀ c2 ∈ rest, opens c2 = false :=
      fun c2 hc2 => h c2 (by simp [hc2])
    simp [try_candidates, hc, ih hrest]

/-- Claim C7: if every candidate configuration fails to open, negotiation
terminates after attempting each candidate exactly once (the attempted list
is the candidate list itself), `create_device` returns exactly one
"no supported config" failure, and on the `RecreateStream` event the
supervisor loop returns immediately (`createFailed`) without processing any
further event — no further automatic recreation is attempted, whatever
events follow. -/
theorem C7_exhaustion_single_failure (opens : SupportedStreamConfig → Bool)
    (m : Mixer) (cands : List SupportedStreamConfig) (rest : List StreamEvent)
    (h : ∀ c ∈ cands, opens c = false) :
    (try_candidates opens m cands).2.1 = cands ∧
    (try_candidates opens m cands).2.2 = Except.error "no supported config" ∧
    (runLoop opens cands m (StreamEvent.RecreateStream :: rest)).2 =
      RunExit.createFailed := by
  have ht := try_candidates_all_fail opens cands h m
  refine ⟨?_, ?_, ?_⟩
  · rw [ht]
  · rw [ht]
  · simp [runLoop, ht]

theorem C7_exhaustion_single_failure_witness :
    (∀ c ∈ [({ sample_rate := 48000, channels := 2,
               sample_format := SampleFormat.F32 } : SupportedStreamConfig)],
      ((fun _ => false) : SupportedStreamConfig → Bool) c = false) ∧
    ((try_candidates (fun _ => false)
        { channels := 2, sample_rate := 48000, sounds := [] }
        [{ sample_rate := 48000, channels := 2,
           sample_format := SampleFormat.F32 }]).2.1 =
      [{ sample_rate := 48000, channels := 2,
         sample_format := SampleFormat.F32 }] ∧
     (try_candidates (fun _ => false)
        { channels := 2, sample_rate := 48000, sounds := [] }
        [{ sample_rate := 48000, channels := 2,
           sample_format := SampleFormat.F32 }]).2.2 =
      Except.error "no supported config" ∧
     (runLoop (fun _ => false)
        [{ sample_rate := 48000, channels := 2,
           sample_format := SampleFormat.F32 }]
        { channels := 2, sample_rate := 48000, sounds := [] }
        [StreamEvent.RecreateStream]).2 = RunExit.createFailed) :=
  ⟨fun _ _ => rfl,
   C7_exhaustion_single_failure (fun _ => false)
     { channels := 2, sample_rate := 48000, sounds := [] }
     [{ sample_rate := 48000, channels := 2,
        sample_format := SampleFormat.F32 }]
     [] (fun _ _ => rfl)⟩

/-- Claim C2, counterexample: the Stopped state reached after negotiation
failure is reachable (with no candidate opening, the loop returns
`createFailed` on its self-issued `RecreateStream`, dropping the receiver),
and in that state the drop path of `Backend` panics: the
`sender.send(StreamEvent::Drop).unwrap()` unwraps a failed send. So it is
false that the drop path never panics in every reachable supervisor state. -/
theorem C2_counterexample :
    (runLoop (fun _ => false)
      [{ sample_rate := 48000, channels := 2,
         sample_format := SampleFormat.F32 }]
      { channels := 2, sample_rate := 48000, sounds := [] }
      [StreamEvent.RecreateStream]).2 = RunExit.createFailed ∧
    backend_drop false = DropOutcome.panicked :=
  ⟨rfl, rfl⟩

/-- Claim C2, amended: while the supervisor loop is still receiving (receiver
alive), destroying the Engine completes without panic — the `Drop` event is
sent successfully, the loop returns on receiving it, and the join returns;
but in the Stopped state (receiver already dropped) the drop path panics on
the unwrapped channel send. -/
theorem C2_amended_drop_completes (opens : SupportedStreamConfig → Bool)
    (cands : List SupportedStreamConfig) (m : Mixer) (rest : List StreamEvent) :
    backend_drop true = DropOutcome.completed ∧
    (runLoop opens cands m (StreamEvent.Drop :: rest)).2 =
      RunExit.dropReceived ∧
    backend_drop false = DropOutcome.panicked :=
  ⟨rfl, rfl, rfl⟩

/-- Claim C9, counterexample: a failed send is not treated as an implicit
shutdown signal. With the receiver dropped, the bound error handler's
`send(..).unwrap()` panics (third component `true`), and the facade
teardown's `send(..).unwrap()` panics as well, instead of stopping
normally. -/
theorem C9_counterexample :
    (handler_invoke false false).2.2 = true ∧
    backend_drop false = DropOutcome.panicked :=
  ⟨rfl, rfl⟩

/-- Claim C9, amended: only receive failures on the lifecycle channel are
treated as an implicit shutdown signal — when the channel closes, the
supervisor loop exits normally (`channelClosed`); send failures are not: both
the error handler's send and the facade teardown's send unwrap the failed
result and panic once the receiver has been dropped. -/
theorem C9_amended_recv_failure_only (opens : SupportedStreamConfig → Bool)
    (cands : List SupportedStreamConfig) (m : Mixer) :
    (runLoop opens cands m []).2 = RunExit.channelClosed ∧
    (handler_invoke false false).2.2 = true ∧
    backend_drop false = DropOutcome.panicked :=
  ⟨rfl, rfl, rfl⟩

/-- Claim C3, code evaluated at the failing input: two clamped candidates
that both fail the 48000 Hz test, one with sample rate exactly 44100 Hz
(1 channel, F32) and one whose rate is neither 48000 nor 44100 (22050 Hz,
2 channels, I16). The sort key's second component in the source tests
`sample_rate == 441000` (an extra zero), so the 44100 Hz candidate gets no
preference at that tier and the 22050 Hz candidate is strictly preferred via
the channel components — contradicting the claimed second key component
'sample rate equals 44100 Hz'. -/
theorem C3_second_key_component_eval :
    (map_config { min_sample_rate := 44100, max_sample_rate := 44100,
                  channels := 1, sample_format := SampleFormat.F32 }).sample_rate
      = 44100 ∧
    (map_config { min_sample_rate := 22050, max_sample_rate := 22050,
                  channels := 2, sample_format := SampleFormat.I16 }).sample_rate
      = 22050 ∧
    preferred_over
      (map_config { min_sample_rate := 22050, max_sample_rate := 22050,
                    channels := 2, sample_format := SampleFormat.I16 })
      (map_config { min_sample_rate := 44100, max_sample_rate := 44100,
                    channels := 1, sample_format := SampleFormat.F32 }) = true ∧
    preferred_over
      (map_config { min_sample_rate := 44100, max_sample_rate := 44100,
                    channels := 1, sample_format := SampleFormat.F32 })
      (map_config { min_sample_rate := 22050, max_sample_rate := 22050,
                    channels := 2, sample_format := SampleFormat.I16 }) = false := by
  decide

end DuelAudio
